import Mathlib

/-!
Verification development for the Reavix native request-serving engine.

The definitions below are shallow embeddings of the C sources:
  * `src/src/core/ipc.c` — the lock-free bump-allocated message arena
    (`ipc_arena_init`, `ipc_arena_allocate`) together with an embedding of
    the XXH32 hash it stores in each message header;
  * `src/backend/src/libreavix.c` — route registration (`reavix_route`),
    the trie router (`trie_insert`, `trie_match`), the dispatch pipeline
    (`handle_request`, `send_response`) and WebSocket framing
    (`reavix_ws_send`);
  * `src/backend/include/libreavix.c` — the response/request helpers
    (`res_send_json`, `res_send_error`, `res_write`, `req_get_param`,
    `res_set_header`) and that file's variants of `trie_insert` and
    `trie_match`;
  * `src/unnamed/part_010` — the standalone router (`router_match`).

C strings are modelled as Lean `String`s (request paths and header text are
ASCII), raw byte buffers as `List Nat` with every element below 256, machine
integers as `Nat` with explicit reductions modulo 2 ^ 32 where the C uses
`uint32_t` arithmetic, and fallible allocation as an explicit boolean oracle
or an `Option` result.
-/

/-! ## Byte and string helpers -/

/-- Bytes of an ASCII string: `char*` contents up to (excluding) the NUL. -/
def strBytes (s : String) : List Nat := s.toList.map (fun c => c.toNat)

/-- Tests whether `hay` begins with `needle` (byte-wise). -/
def listStarts : List Nat → List Nat → Bool
  | _, [] => true
  | [], _ :: _ => false
  | a :: as, b :: bs => a == b && listStarts as bs

/-- Tests whether `needle` occurs contiguously inside `hay` (models a
substring search over the body bytes). -/
def listHasSub : List Nat → List Nat → Bool
  | [], needle => listStarts [] needle
  | a :: t, needle => listStarts (a :: t) needle || listHasSub t needle

/-- ASCII lower-casing of one character, as C `tolower` behaves in the
default locale (used by `strcasecmp`). -/
def lowerChar (c : Char) : Char :=
  if 65 ≤ c.toNat ∧ c.toNat ≤ 90 then Char.ofNat (c.toNat + 32) else c

/-- Case-insensitive string equality: `strcasecmp(a, b) == 0`. -/
def strcaseEq (a b : String) : Bool :=
  a.toList.map lowerChar == b.toList.map lowerChar

/-- Accumulator for `segmentsOf`: walks the characters, collecting the
current segment in reverse. -/
def splitSegsAux : List Char → List Char → List String
  | [], cur => if cur.isEmpty then [] else [String.mk cur.reverse]
  | c :: rest, cur =>
    if c == '/' then
      if cur.isEmpty then splitSegsAux rest []
      else String.mk cur.reverse :: splitSegsAux rest []
    else splitSegsAux rest (c :: cur)

/-- Path segmentation exactly as `strtok_r(path, "/", ...)` yields it:
maximal runs of non-`/` characters, empty tokens skipped. -/
def segmentsOf (path : String) : List String := splitSegsAux path.toList []

/-- True when a pattern segment is a parameter segment (`segment[0] == ':'`). -/
def segIsParam (seg : String) : Bool :=
  match seg.toList with
  | c :: _ => c == ':'
  | [] => false

/-- Decimal rendering of a nonnegative integer, as `snprintf` `%d` prints it
(fuel-based so the kernel can evaluate it). -/
def natDecGo : Nat → Nat → List Char
  | 0, _ => []
  | fuel + 1, n =>
    if n == 0 then [] else natDecGo fuel (n / 10) ++ [Char.ofNat (48 + n % 10)]

/-- Decimal string of a `Nat`. -/
def natDec (n : Nat) : String :=
  if n == 0 then "0" else String.mk (natDecGo n n)

/-! ## XXH32

Embedding of the XXH32 hash used by `ipc_arena_allocate` for the `checksum`
header field (`XXH32(ptr, size, IPC_MAGIC)`). All arithmetic is on `Nat`,
reduced modulo `2 ^ 32` wherever the C `uint32_t` computation wraps. -/

/-- First XXH32 prime. -/
def xxhP1 : Nat := 2654435761
/-- Second XXH32 prime. -/
def xxhP2 : Nat := 2246822519
/-- Third XXH32 prime. -/
def xxhP3 : Nat := 3266489917
/-- Fourth XXH32 prime. -/
def xxhP4 : Nat := 668265263
/-- Fifth XXH32 prime. -/
def xxhP5 : Nat := 374761393
/-- Modulus of 32-bit arithmetic. -/
def m32 : Nat := 4294967296

/-- 32-bit left rotation (operand assumed below `2 ^ 32`). -/
def rotl32 (x r : Nat) : Nat := ((x <<< r) ||| (x >>> (32 - r))) % m32

/-- Little-endian 32-bit lane from four bytes. -/
def le32 (b0 b1 b2 b3 : Nat) : Nat := b0 + 256 * b1 + 65536 * b2 + 16777216 * b3

/-- One 16-byte-stripe accumulator round. -/
def xxhRound (acc lane : Nat) : Nat :=
  (rotl32 ((acc + lane * xxhP2) % m32) 13 * xxhP1) % m32

/-- Consumes 16-byte stripes, updating the four accumulators. -/
def xxhStripes : Nat → Nat → Nat → Nat → List Nat →
    Nat × Nat × Nat × Nat × List Nat
  | v1, v2, v3, v4,
    b0 :: b1 :: b2 :: b3 :: b4 :: b5 :: b6 :: b7 ::
    b8 :: b9 :: b10 :: b11 :: b12 :: b13 :: b14 :: b15 :: rest =>
    xxhStripes (xxhRound v1 (le32 b0 b1 b2 b3)) (xxhRound v2 (le32 b4 b5 b6 b7))
      (xxhRound v3 (le32 b8 b9 b10 b11)) (xxhRound v4 (le32 b12 b13 b14 b15)) rest
  | v1, v2, v3, v4, rest => (v1, v2, v3, v4, rest)

/-- Consumes remaining 4-byte lanes after the stripes. -/
def xxhTail4 : Nat → List Nat → Nat × List Nat
  | acc, b0 :: b1 :: b2 :: b3 :: rest =>
    xxhTail4 ((rotl32 ((acc + le32 b0 b1 b2 b3 * xxhP3) % m32) 17 * xxhP4) % m32) rest
  | acc, rest => (acc, rest)

/-- Consumes the final single bytes. -/
def xxhTail1 : Nat → List Nat → Nat
  | acc, b :: rest => xxhTail1 ((rotl32 ((acc + b * xxhP5) % m32) 11 * xxhP1) % m32) rest
  | acc, [] => acc

/-- Final XXH32 avalanche. -/
def xxhAvalanche (h0 : Nat) : Nat :=
  let h1 := h0 ^^^ (h0 >>> 15)
  let h2 := h1 * xxhP2 % m32
  let h3 := h2 ^^^ (h2 >>> 13)
  let h4 := h3 * xxhP3 % m32
  h4 ^^^ (h4 >>> 16)

/-- XXH32 of a byte list with the given seed. -/
def xxh32 (input : List Nat) (seed : Nat) : Nat :=
  let len := input.length
  let start :=
    if 16 ≤ len then
      match xxhStripes ((seed + xxhP1 + xxhP2) % m32) ((seed + xxhP2) % m32)
          (seed % m32) ((seed + (m32 - xxhP1 % m32)) % m32) input with
      | (v1, v2, v3, v4, rest) =>
        ((rotl32 v1 1 + rotl32 v2 7 + rotl32 v3 12 + rotl32 v4 18) % m32, rest)
    else ((seed + xxhP5) % m32, input)
  let acc := (start.1 + len) % m32
  match xxhTail4 acc start.2 with
  | (acc2, rest2) => xxhAvalanche (xxhTail1 acc2 rest2)

/-! ## Message arena (`src/src/core/ipc.c`)

The arena buffer is modelled as a total function from byte index to byte
value; the C code performs unchecked pointer writes, so the model likewise
permits writes at any index, and the theorems reason about which indices lie
inside the declared capacity `IPC_BUFFER_SIZE`. -/

/-- Magic constant stored in every message header (`#define IPC_MAGIC`). -/
def IPC_MAGIC : Nat := 0x52454156

/-- Fixed capacity of the arena buffer (`#define IPC_BUFFER_SIZE (1 << 22)`). -/
def IPC_BUFFER_SIZE : Nat := 1 <<< 22

/-- State of an `IPCArena`: the two atomic cursors and the byte store. -/
structure IPCArena where
  write_offset : Nat
  read_offset : Nat
  buffer : Nat → Nat

/-- Writes a list of bytes into the store starting at `off`. -/
def writeBytes (buf : Nat → Nat) (off : Nat) (bytes : List Nat) : Nat → Nat :=
  fun i => if off ≤ i ∧ i < off + bytes.length then bytes.getD (i - off) 0 else buf i

/-- Writes `len` zero bytes starting at `off` (models `memset(ptr, 0, size)`). -/
def zeroFill (buf : Nat → Nat) (off len : Nat) : Nat → Nat :=
  fun i => if off ≤ i ∧ i < off + len then 0 else buf i

/-- Little-endian byte decomposition of a 32-bit value. -/
def u32Bytes (v : Nat) : List Nat :=
  [v % 256, v / 256 % 256, v / 65536 % 256, v / 16777216 % 256]

/-- Stores a `uint32_t` little-endian at byte offset `off`. -/
def writeU32 (buf : Nat → Nat) (off v : Nat) : Nat → Nat :=
  writeBytes buf off (u32Bytes v)

/-- Reads a little-endian `uint32_t` at byte offset `off`. -/
def readU32 (buf : Nat → Nat) (off : Nat) : Nat :=
  buf off + 256 * buf (off + 1) + 65536 * buf (off + 2) + 16777216 * buf (off + 3)

/-- Reads `len` consecutive bytes starting at `off`. -/
def readBytes (buf : Nat → Nat) (off len : Nat) : List Nat :=
  (List.range len).map (fun i => buf (off + i))

/-- Embedding of `ipc_arena_init`: both cursors zero, buffer zeroed. -/
def ipc_arena_init : IPCArena :=
  { write_offset := 0, read_offset := 0, buffer := fun _ => 0 }

/-- Embedding of `ipc_arena_allocate`. The C computes the 16-byte-aligned
length `(size + 15) & ~15` (the source text has a stray `n` before the
parenthesis; the intended and spec-described expression is the usual
round-up), loads the write offset, fails when `offset + aligned_size`
exceeds `IPC_BUFFER_SIZE`, then writes the header words `magic`, `length`
and `flags`, zeroes the payload, computes the checksum over the just-zeroed
payload region, stores it in the header, and advances the offset by
`aligned_size + 16`. Returns the arena after the call together with the
payload pointer (buffer index `offset + 16`). -/
def ipc_arena_allocate (arena : IPCArena) (size : Nat) : Option (IPCArena × Nat) :=
  let aligned_size := (size + 15) / 16 * 16
  let current_offset := arena.write_offset
  if IPC_BUFFER_SIZE < current_offset + aligned_size then none
  else
    let buf1 := writeU32 arena.buffer current_offset IPC_MAGIC
    let buf2 := writeU32 buf1 (current_offset + 4) (size % m32)
    let buf3 := writeU32 buf2 (current_offset + 12) 0
    let ptr := current_offset + 16
    let buf4 := zeroFill buf3 ptr size
    let checksum := xxh32 (readBytes buf4 ptr size) IPC_MAGIC
    let buf5 := writeU32 buf4 (current_offset + 8) checksum
    some ({ arena with
              write_offset := current_offset + aligned_size + 16,
              buffer := buf5 }, ptr)

/-- Caller-side payload write into a region returned by the allocator
(models `memcpy(ptr, data, size)` by the arena client). -/
def ipc_write_payload (arena : IPCArena) (ptr : Nat) (payload : List Nat) : IPCArena :=
  { arena with buffer := writeBytes arena.buffer ptr payload }

/-! ## Trie router

`TrieNode` mirrors the C struct: a segment string, an optional handler
(`RouteHandler` pointers are modelled as `Nat` identifiers, `NULL` as
`none`), the ordered static-children array and the single optional
parameter child. The repository contains two variants of `trie_insert` and
`trie_match` (in `src/backend/src/libreavix.c` and in
`src/backend/include/libreavix.c`); both are embedded, with `Src`/`Inc`
name components telling them apart. Allocation failure inside an insert is
driven by a boolean oracle: `allocOk = false` makes the first
`create_trie_node`/`trie_node_new` call fail. -/

/-- Trie node: segment, optional handler, static children, parameter child. -/
inductive TrieNode : Type where
  | mk : String → Option Nat → List TrieNode → Option TrieNode → TrieNode

/-- Segment text of a node. -/
def TrieNode.segment : TrieNode → String
  | .mk s _ _ _ => s

/-- Handler of a node (`NULL` modelled as `none`). -/
def TrieNode.handler : TrieNode → Option Nat
  | .mk _ h _ _ => h

/-- Static children of a node, in insertion order. -/
def TrieNode.children : TrieNode → List TrieNode
  | .mk _ _ c _ => c

/-- Parameter child of a node, if any. -/
def TrieNode.param_child : TrieNode → Option TrieNode
  | .mk _ _ _ p => p

/-- Replaces the handler of a node. -/
def TrieNode.withHandler : TrieNode → Nat → TrieNode
  | .mk s _ c p, h => .mk s (some h) c p

/-- Replaces the children list of a node. -/
def TrieNode.withChildren : TrieNode → List TrieNode → TrieNode
  | .mk s h _ p, c => .mk s h c p

/-- Replaces the parameter child of a node. -/
def TrieNode.withParam : TrieNode → TrieNode → TrieNode
  | .mk s h c _, pc => .mk s h c (some pc)

/-- Fresh node for a segment, as `create_trie_node` builds it. -/
def newTrieNode (seg : String) : TrieNode := .mk seg none [] none

/-- Root node as `reavix_init` builds it: empty segment, no handler,
no children, no parameter child. -/
def root0 : TrieNode := .mk "" none [] none

/-- Loop body of `trie_insert` from `src/backend/src/libreavix.c`, by
recursion on the remaining segments. The static-children search is guarded
by `!is_param`; a parameter segment always allocates a fresh node and
overwrites the parameter-child slot (last registration wins). A `none`
result is the allocation-failure path (`create_trie_node` returning NULL). -/
def trieInsertSrcGo (allocOk : Bool) : TrieNode → List String → Nat → Option TrieNode
  | cur, [], h => some (cur.withHandler h)
  | cur, seg :: rest, h =>
    let is_param := segIsParam seg
    match (if is_param then none
           else List.findIdx? (fun c => c.segment == seg) cur.children) with
    | some i =>
      match trieInsertSrcGo allocOk (cur.children.getD i cur) rest h with
      | some c2 => some (cur.withChildren (cur.children.set i c2))
      | none => none
    | none =>
      if allocOk then
        if is_param then
          match trieInsertSrcGo allocOk (newTrieNode seg) rest h with
          | some pc => some (cur.withParam pc)
          | none => none
        else
          match trieInsertSrcGo allocOk (newTrieNode seg) rest h with
          | some c2 => some (cur.withChildren (cur.children ++ [c2]))
          | none => none
      else none

/-- Embedding of `trie_insert` from `src/backend/src/libreavix.c`. -/
def trie_insert_src (allocOk : Bool) (root : TrieNode) (path : String) (h : Nat) :
    Option TrieNode :=
  trieInsertSrcGo allocOk root (segmentsOf path) h

/-- Loop body of `trie_insert` from `src/backend/include/libreavix.c`. The
only difference from the `src` variant: the static-children search runs for
every segment, parameter segments included. -/
def trieInsertIncGo (allocOk : Bool) : TrieNode → List String → Nat → Option TrieNode
  | cur, [], h => some (cur.withHandler h)
  | cur, seg :: rest, h =>
    match List.findIdx? (fun c => c.segment == seg) cur.children with
    | some i =>
      match trieInsertIncGo allocOk (cur.children.getD i cur) rest h with
      | some c2 => some (cur.withChildren (cur.children.set i c2))
      | none => none
    | none =>
      if allocOk then
        if segIsParam seg then
          match trieInsertIncGo allocOk (newTrieNode seg) rest h with
          | some pc => some (cur.withParam pc)
          | none => none
        else
          match trieInsertIncGo allocOk (newTrieNode seg) rest h with
          | some c2 => some (cur.withChildren (cur.children ++ [c2]))
          | none => none
      else none

/-- Embedding of `trie_insert` from `src/backend/include/libreavix.c`. -/
def trie_insert_inc (allocOk : Bool) (root : TrieNode) (path : String) (h : Nat) :
    Option TrieNode :=
  trieInsertIncGo allocOk root (segmentsOf path) h

/-- Maximum number of captured path parameters (`#define MAX_PARAMS 10`). -/
def MAX_PARAMS : Nat := 10

/-- Loop body of `trie_match` from `src/backend/src/libreavix.c`. Note the
exact transcription of the C control flow: the static search runs only when
the request segment itself does not start with a colon, and the
parameter-child fallback is likewise guarded by
`is_param = (segment[0] == ':')`. -/
def trieMatchSrcGo : TrieNode → List String → List (String × String) →
    Option (List (String × String) × Nat)
  | cur, [], acc =>
    match cur.handler with
    | some h => some (acc, h)
    | none => none
  | cur, seg :: rest, acc =>
    let is_param := segIsParam seg
    match (if is_param then none
           else cur.children.find? (fun c => c.segment == seg)) with
    | some child => trieMatchSrcGo child rest acc
    | none =>
      if is_param then
        match cur.param_child with
        | some pc =>
          if acc.length < MAX_PARAMS then
            trieMatchSrcGo pc rest (acc ++ [(pc.segment.drop 1, seg)])
          else none
        | none => none
      else none

/-- Embedding of `trie_match` from `src/backend/src/libreavix.c`: returns
the captured parameters and the terminal handler; the C returns
`current->handler != NULL`, so a missing terminal handler is `none`. -/
def trie_match_src (root : TrieNode) (path : String) :
    Option (List (String × String) × Nat) :=
  trieMatchSrcGo root (segmentsOf path) []

/-- Loop body of `trie_match` from `src/backend/include/libreavix.c`: at
each depth every static child is tried first; only if none matches does the
match fall back to the parameter child, capturing the literal segment under
the parameter's declared name (segment text minus the leading colon). When
the capture array is full the capture is dropped but the walk continues. -/
def trieMatchIncGo : TrieNode → List String → List (String × String) →
    Option (List (String × String) × Option Nat)
  | cur, [], acc => some (acc, cur.handler)
  | cur, seg :: rest, acc =>
    match cur.children.find? (fun c => c.segment == seg) with
    | some child => trieMatchIncGo child rest acc
    | none =>
      match cur.param_child with
      | some pc =>
        if acc.length < MAX_PARAMS then
          trieMatchIncGo pc rest (acc ++ [(pc.segment.drop 1, seg)])
        else trieMatchIncGo pc rest acc
      | none => none

/-- Embedding of `trie_match` from `src/backend/include/libreavix.c`. This
variant returns `true` (here: `some`) as soon as the walk completes, even
when the terminal handler is `NULL`, so the handler is an `Option`. -/
def trie_match_inc (root : TrieNode) (path : String) :
    Option (List (String × String) × Option Nat) :=
  trieMatchIncGo root (segmentsOf path) []

/-! ## Standalone router (`src/unnamed/part_010`) -/

/-- Router state from `router.h` / `part_010`: the flat route table
(method, path, handler id) and the trie root. -/
structure Router where
  routes : List (String × String × Nat)
  root : TrieNode

/-- Matching loop of `router_match` in `src/unnamed/part_010`: static
children are checked first at every depth, then the parameter child; a
capture is recorded only while fewer than `MAX_PARAMS` parameters have been
captured, but the walk continues regardless. -/
def routerMatchGo : TrieNode → List String → List (String × String) →
    Option (List (String × String) × Option Nat)
  | cur, [], acc => some (acc, cur.handler)
  | cur, seg :: rest, acc =>
    match cur.children.find? (fun c => c.segment == seg) with
    | some child => routerMatchGo child rest acc
    | none =>
      match cur.param_child with
      | some pc =>
        if acc.length < MAX_PARAMS then
          routerMatchGo pc rest (acc ++ [(pc.segment.drop 1, seg)])
        else routerMatchGo pc rest acc
      | none => none

/-- Embedding of `router_match` from `src/unnamed/part_010`: after the trie
walk, when a method hint is given the flat table must contain an entry with
the same handler pointer and that method, otherwise the match fails. -/
def router_match (r : Router) (method : Option String) (path : String) :
    Option (List (String × String) × Option Nat) :=
  match routerMatchGo r.root (segmentsOf path) [] with
  | none => none
  | some (params, h) =>
    match method with
    | none => some (params, h)
    | some m =>
      if r.routes.any (fun e => some e.2.2 == h && e.1 == m) then some (params, h)
      else none

/-! ## Request / Response model

`Response` mirrors the public struct of `libreavix.h`: status code, growable
body buffer (`content` holds the raw allocated bytes, `content_length` the
logical body length), the ordered header array, and the `headers_sent`
latch. The `sent` field is the observable effect log of `send_response`
(what was handed to `uv_write`), standing in for the socket. -/

/-- Response value object. -/
structure Response where
  status_code : Nat
  content : List Nat
  content_length : Nat
  headers : List (String × String)
  headers_sent : Bool
  sent : List (Nat × List (String × String) × List Nat)

/-- Request value object (the fields the embedded helpers read). -/
structure Request where
  method : String
  path : String
  body : String
  headers : List (String × String)
  params : List (String × String)

/-- Logical body of a response: the first `content_length` buffer bytes. -/
def Response.body (r : Response) : List Nat := r.content.take r.content_length

/-- Fresh empty response created alongside its request. -/
def res0 : Response :=
  { status_code := 0, content := [], content_length := 0, headers := [],
    headers_sent := false, sent := [] }

/-- Embedding of `res_set_header` (`src/backend/include/libreavix.c`):
appends the pair to the ordered header arrays. -/
def res_set_header (r : Response) (n v : String) : Response :=
  { r with headers := r.headers ++ [(n, v)] }

/-- Embedding of `res_send_json` from `src/backend/include/libreavix.c`:
frees the old body, sets `status_code = 200`, installs the JSON text as the
body and appends the `Content-Type` header. -/
def res_send_json (r : Response) (json : String) : Response :=
  res_set_header
    { r with status_code := 200, content := strBytes json,
             content_length := (strBytes json).length }
    "Content-Type" "application/json"

/-- JSON error payload rendered by the `snprintf` in `res_send_error`. -/
def errorJson (code : Nat) (message : String) : String :=
  "\x7b\"error\":\x7b\"code\":" ++ natDec code ++ ",\"message\":\"" ++ message
    ++ "\"\x7d\x7d"

/-- Embedding of `res_send_error` from `src/backend/include/libreavix.c`:
sets `status_code = code`, formats the error JSON and hands it to
`res_send_json` (which in turn overwrites the status code with 200). -/
def res_send_error (r : Response) (code : Nat) (message : String) : Response :=
  res_send_json { r with status_code := code } (errorJson code message)

/-- Embedding of `res_write` (`src/backend/include/libreavix.c`). The
`allocOk` oracle decides the `realloc` outcome; `none` arguments model NULL
pointers. On success the buffer holds the old body, the appended data and a
terminating NUL, and `content_length` grows by `data.length`; every failure
leaves the response untouched. -/
def res_write (allocOk : Bool) (res : Option Response) (data : Option (List Nat)) :
    Option Response × Bool :=
  match res, data with
  | some r, some d =>
    if allocOk then
      (some { r with content := r.content.take r.content_length ++ d ++ [0],
                     content_length := r.content_length + d.length }, true)
    else (some r, false)
  | r, _ => (r, false)

/-- Embedding of `req_get_param` (`src/backend/include/libreavix.c`):
NULL request or key yields NULL; otherwise the first captured parameter
whose name satisfies `strcasecmp(name, key) == 0` supplies the value. -/
def req_get_param (req : Option Request) (key : Option String) : Option String :=
  match req, key with
  | some r, some k => (r.params.find? (fun p => strcaseEq p.1 k)).map (fun p => p.2)
  | _, _ => none

/-! ## Protocol framer and dispatch pipeline (`src/backend/src/libreavix.c`) -/

/-- Embedding of `send_response`: a no-op when `headers_sent` is already
set; otherwise the status line, headers, computed `Content-Length` and body
are handed to the socket (recorded structurally in the `sent` log) and the
`headers_sent` latch is set. -/
def send_response (r : Response) : Response :=
  if r.headers_sent then r
  else
    { r with
        sent := r.sent ++ [(r.status_code, r.headers, r.content.take r.content_length)],
        headers_sent := true }

/-- Embedding of `reavix_ws_send` (`src/backend/src/libreavix.c`). The
guards model the NULL checks and the `ctx->is_websocket` test; the message
is the NUL-free byte content of the C string. Result: the frame bytes
handed to `uv_write`, or `none` when no frame is emitted. Payloads of at
most 125 bytes use the one-byte length; payloads up to 65535 use marker 126
plus a big-endian two-byte length; anything larger frees the frame and
returns without writing. -/
def reavix_ws_send (is_websocket : Bool) (message : List Nat) : Option (List Nat) :=
  if is_websocket = false then none
  else
    let msg_len := message.length
    if msg_len ≤ 125 then
      some (129 :: msg_len :: message)
    else if msg_len ≤ 65535 then
      some (129 :: 126 :: ((msg_len >>> 8) &&& 255) :: (msg_len &&& 255) :: message)
    else none

/-- One middleware / hook stage: receives the response and returns its
mutation of it (the request argument and the no-op `next` continuation of
the C signature carry no information for the pipeline state). -/
def runShortCircuit : List (Response → Response) → Response → Response × Bool
  | [], res => (res, false)
  | f :: rest, res =>
    let r := f res
    if r.headers_sent then (r, true) else runShortCircuit rest r

/-- Post-handler hooks run unconditionally and in order. -/
def applyPosthooks (hooks : List (Response → Response)) (r : Response) : Response :=
  hooks.foldl (fun acc f => f acc) r

/-- Embedding of `handle_request` (`src/backend/src/libreavix.c`): run the
middleware list, returning as soon as one sets `headers_sent`; run the
pre-handler plugin hooks the same way; then match the path in the trie
(that file's `trie_match`) and either invoke the resolved handler with the
captured parameters or synthesize the 404 error response; finally run every
post-handler plugin hook. `handlers` interprets handler identifiers. -/
def handle_request (mws prehooks : List (Response → Response)) (root : TrieNode)
    (handlers : Nat → List (String × String) → Response → Response)
    (posthooks : List (Response → Response)) (path : String) (res : Response) :
    Response :=
  match runShortCircuit mws res with
  | (r, true) => r
  | (r1, false) =>
    match runShortCircuit prehooks r1 with
    | (r2, true) => r2
    | (r2, false) =>
      let r3 :=
        match trie_match_src root path with
        | some (params, h) => handlers h params r2
        | none => res_send_error r2 404 "Not Found"
      applyPosthooks posthooks r3

/-! ## Route registration (`src/backend/src/libreavix.c`) -/

/-- Registration-relevant server state: the flat route table, its fixed
capacity and the trie root. -/
structure ReavixState where
  routes : List (String × String × Nat)
  route_capacity : Nat
  root_node : TrieNode

/-- Embedding of `reavix_route`: NULL arguments fail; a full table fails; a
duplicate (method, path) pair fails; otherwise the route is appended to the
flat table and then inserted into the trie — and when that trie insertion
fails (allocation oracle), the function returns `false` with the appended
table entry left in place. -/
def reavix_route (allocOk : Bool) (st : ReavixState)
    (method path : Option String) (handler : Option Nat) : ReavixState × Bool :=
  match method, path, handler with
  | some m, some p, some h =>
    if st.route_capacity ≤ st.routes.length then (st, false)
    else if st.routes.any (fun e => e.1 == m && e.2.1 == p) then (st, false)
    else
      let st1 := { st with routes := st.routes ++ [(m, p, h)] }
      match trie_insert_src allocOk st1.root_node p h with
      | some root2 => ({ st1 with root_node := root2 }, true)
      | none => (st1, false)
  | _, _, _ => (st, false)

/-! ## Concrete fixtures used by the claim theorems -/

/-- Trie holding only the pattern `/users/:id` (handler 1), built by the
`trie_insert` of `src/backend/src/libreavix.c`. -/
def usersIdTrie : TrieNode := (trie_insert_src true root0 "/users/:id" 1).getD root0

/-- Trie holding `/users/:id` (handler 1) and `/users/me` (handler 2),
built by the `trie_insert` of `src/backend/include/libreavix.c`. -/
def usersTrie : TrieNode :=
  (trie_insert_inc true ((trie_insert_inc true root0 "/users/:id" 1).getD root0)
    "/users/me" 2).getD root0

/-- Router state with both `/users` routes registered (flat table plus the
trie those two registrations produce). -/
def demoRouter : Router :=
  { routes := [("GET", "/users/:id", 1), ("GET", "/users/me", 2)], root := usersTrie }

/-- Dispatch outcome for a request whose path has no registered route. -/
def notFoundOut : Response :=
  handle_request [] [] root0 (fun _ _ r => r) [] "/nope" res0

/-- Empty registration state with room for eight routes. -/
def st0 : ReavixState := { routes := [], route_capacity := 8, root_node := root0 }

/-- Arena state after a first allocation of `IPC_BUFFER_SIZE - 32` bytes. -/
def c2Step1 : IPCArena × Nat :=
  (ipc_arena_allocate ipc_arena_init (IPC_BUFFER_SIZE - 32)).getD (ipc_arena_init, 0)

/-- Second allocation: 8 more bytes from the almost-full arena. -/
def c2Step2 : IPCArena × Nat :=
  (ipc_arena_allocate c2Step1.1 8).getD (ipc_arena_init, 0)

/-- Fresh arena after one 4-byte allocation. -/
def c3Step : IPCArena × Nat := (ipc_arena_allocate ipc_arena_init 4).getD (ipc_arena_init, 0)

/-- The same arena after the caller populates the returned region with the
payload bytes 1, 2, 3, 4. -/
def c3Arena : IPCArena := ipc_write_payload c3Step.1 c3Step.2 [1, 2, 3, 4]

/-! ## Claim theorems -/

/-- C1: the claim says a request whose path has no registered route is
turned into a response with `status_code = 404` and a JSON body containing
"error". Evaluating the dispatch pipeline at such a request shows the body
is indeed the JSON error document, but the status code ends up 200, not
404: `res_send_error` stores 404 and then calls `res_send_json`, which
overwrites the status code with 200. -/
theorem C1_unregistered_path_gets_status_200 :
    trie_match_src root0 "/nope" = none ∧
    notFoundOut.status_code = 200 ∧
    notFoundOut.status_code ≠ 404 ∧
    listHasSub notFoundOut.content (strBytes "error") = true ∧
    notFoundOut.headers = [("Content-Type", "application/json")] := by
  refine ⟨by decide, by decide, by decide, by decide, by decide⟩

/-- C2: the claim says every successful `ipc_arena_allocate` keeps the
entire written region (16-byte header plus payload) within
`IPC_BUFFER_SIZE`, and a call that would exceed the capacity returns NULL.
Evaluating the code refutes this: after a first allocation of
`IPC_BUFFER_SIZE - 32` bytes the write offset is `IPC_BUFFER_SIZE - 16`,
and a second allocation of 8 bytes still succeeds — its capacity check
`offset + aligned_size > IPC_BUFFER_SIZE` ignores the 16-byte header the
call then writes — returning payload pointer `IPC_BUFFER_SIZE`, so all
eight payload bytes (region end `IPC_BUFFER_SIZE + 8`) lie beyond the
fixed capacity, and the advanced write offset also exceeds it. -/
theorem C2_allocation_overruns_capacity :
    (ipc_arena_allocate ipc_arena_init (IPC_BUFFER_SIZE - 32)).isSome = true ∧
    c2Step1.1.write_offset = IPC_BUFFER_SIZE - 16 ∧
    (ipc_arena_allocate c2Step1.1 8).isSome = true ∧
    c2Step2.2 = IPC_BUFFER_SIZE ∧
    IPC_BUFFER_SIZE < c2Step2.2 + 8 ∧
    IPC_BUFFER_SIZE < c2Step2.1.write_offset := by
  refine ⟨by decide, by decide, by decide, by decide, by decide, by decide⟩

/-- C3: the claim says the stored header checksum equals a fresh XXH32 hash
of the payload at read time. Evaluating the code refutes the checksum
clause: `ipc_arena_allocate` computes the checksum over the just-zeroed
region before the caller writes the payload, so after the caller stores
bytes 1, 2, 3, 4 the re-read payload is byte-identical (that clause holds)
and the header length field is correct, but the stored checksum is
`XXH32` of four zero bytes, which differs from the fresh hash of the
actual payload. -/
theorem C3_checksum_is_hash_of_zeroed_region :
    (ipc_arena_allocate ipc_arena_init 4).isSome = true ∧
    c3Step.2 = 16 ∧
    readU32 c3Arena.buffer 0 = IPC_MAGIC ∧
    readU32 c3Arena.buffer 4 = 4 ∧
    readBytes c3Arena.buffer 16 4 = [1, 2, 3, 4] ∧
    readU32 c3Arena.buffer 8 = xxh32 [0, 0, 0, 0] IPC_MAGIC ∧
    readU32 c3Arena.buffer 8 ≠ xxh32 (readBytes c3Arena.buffer 16 4) IPC_MAGIC := by
  refine ⟨by decide, by decide, by decide, by decide, by decide, by decide, by decide⟩

/-- C4: the claim says a `reavix_route` call that returns false leaves both
the flat route table and the trie unmodified. Evaluating the code refutes
this for the allocation-failure cause: with a failing trie-node allocation,
registering GET `/a` in the empty state returns false, yet the flat table
has gained the route while the trie is unchanged — the entry appended
before `trie_insert` failed is never rolled back, so table and trie
diverge. The duplicate-registration clause of the claim does hold: with
allocation succeeding, the first registration returns true and the second
identical one returns false with the route count still 1. -/
theorem C4_failed_route_registration_leaves_partial_mutation :
    (reavix_route false st0 (some "GET") (some "/a") (some 1)).2 = false ∧
    (reavix_route false st0 (some "GET") (some "/a") (some 1)).1.routes
      = [("GET", "/a", 1)] ∧
    (reavix_route false st0 (some "GET") (some "/a") (some 1)).1.root_node = root0 ∧
    trie_match_src (reavix_route false st0 (some "GET") (some "/a") (some 1)).1.root_node
      "/a" = none ∧
    (reavix_route true st0 (some "GET") (some "/a") (some 1)).2 = true ∧
    (reavix_route true (reavix_route true st0 (some "GET") (some "/a") (some 1)).1
      (some "GET") (some "/a") (some 1)).2 = false ∧
    (reavix_route true (reavix_route true st0 (some "GET") (some "/a") (some 1)).1
      (some "GET") (some "/a") (some 1)).1.routes.length = 1 := by
  refine ⟨by decide, by decide, rfl, by decide, by decide, by decide, by decide⟩

/-- C5: the claim says that with only `/users/:id` registered, `trie_match`
on `/users/42` succeeds and captures the parameter `id = "42"`. The
`trie_match` of `src/backend/include/libreavix.c` does exactly that, but
the `trie_match` of `src/backend/src/libreavix.c` — the one `handle_request`
calls — returns not-found on the same trie and path: its parameter-child
fallback is guarded by `segment[0] == ':'` tested on the request segment,
which never holds for a concrete path such as `/users/42`. -/
theorem C5_param_match_dead_in_src_trie_match :
    trie_match_src usersIdTrie "/users/42" = none ∧
    trie_match_inc usersIdTrie "/users/42" = some ([("id", "42")], some 1) ∧
    (usersIdTrie.children.find? (fun c => c.segment == "users")).isSome = true := by
  refine ⟨by decide, by decide, by decide⟩

/-- The `users` node of `usersTrie`: static child `me` (handler 2) and
parameter child `:id` (handler 1). -/
def usersNode : TrieNode :=
  .mk "users" none [.mk "me" (some 2) [] none] (some (.mk ":id" (some 1) [] none))

/-- The `me` node of `usersTrie`. -/
def meNode : TrieNode := .mk "me" (some 2) [] none

/-- C6: with both `/users/:id` and `/users/me` registered, a lookup for
`/users/me` returns the static handler (2), not the parameter handler (1)
— shown for the `trie_match` of `src/backend/include/libreavix.c` and for
`router_match` of `src/unnamed/part_010` — while `/users/alice` still
reaches the parameter handler; and in general, whenever the static-children
search finds a matching child at a depth, both match loops descend into
that child and never consult the parameter child at that depth. -/
theorem C6_static_priority (cur child : TrieNode) (seg : String)
    (rest : List String) (acc : List (String × String))
    (hfind : cur.children.find? (fun c => c.segment == seg) = some child) :
    trie_match_inc usersTrie "/users/me" = some ([], some 2) ∧
    trie_match_inc usersTrie "/users/alice" = some ([("id", "alice")], some 1) ∧
    router_match demoRouter (some "GET") "/users/me" = some ([], some 2) ∧
    trieMatchIncGo cur (seg :: rest) acc = trieMatchIncGo child rest acc ∧
    routerMatchGo cur (seg :: rest) acc = routerMatchGo child rest acc := by
  refine ⟨by decide, by decide, by decide, ?_, ?_⟩
  · simp only [trieMatchIncGo]
    rw [hfind]
  · simp only [routerMatchGo]
    rw [hfind]

/-- Witness for C6: the static-priority step instantiated at the `users`
node of the concrete trie, with segment `me` found among the static
children. -/
theorem C6_static_priority_witness :
    trie_match_inc usersTrie "/users/me" = some ([], some 2) ∧
    trieMatchIncGo usersNode ["me"] [] = trieMatchIncGo meNode [] [] ∧
    routerMatchGo usersNode ["me"] [] = routerMatchGo meNode [] [] := by
  have h := C6_static_priority usersNode meNode "me" [] [] rfl
  exact ⟨h.1, h.2.2.2.1, h.2.2.2.2⟩

/-- Masking with 0xFF is reduction modulo 256. -/
theorem and_255_eq_mod (x : Nat) : x &&& 255 = x % 256 := by
  have h := Nat.and_pow_two_sub_one_eq_mod x 8
  norm_num at h
  exact h

/-- Right shift by 8 is division by 256. -/
theorem shiftRight_8_eq_div (x : Nat) : x >>> 8 = x / 256 := by
  have h := Nat.shiftRight_eq_div_pow x 8
  norm_num at h
  exact h

/-- C7: every WebSocket text frame built by `reavix_ws_send` starts with
byte `0x81` (FIN plus text opcode, mask bit clear); a payload of at most
125 bytes gets the one-byte length field; a payload of 126 to 65535 bytes
gets the marker 126 followed by a big-endian two-byte extended length; a
longer payload (such as 70000 bytes) yields no frame at all. -/
theorem C7_ws_frame_classes (m : List Nat) :
    (m.length ≤ 125 →
      reavix_ws_send true m = some (129 :: m.length :: m)) ∧
    (126 ≤ m.length → m.length ≤ 65535 →
      ∃ b2 b3, reavix_ws_send true m = some (129 :: 126 :: b2 :: b3 :: m) ∧
        b2 * 256 + b3 = m.length ∧ b2 < 256 ∧ b3 < 256) ∧
    (65535 < m.length → reavix_ws_send true m = none) := by
  refine ⟨?_, ?_, ?_⟩
  · intro h
    simp [reavix_ws_send, h]
  · intro h1 h2
    refine ⟨(m.length >>> 8) &&& 255, m.length &&& 255, ?_, ?_, ?_, ?_⟩
    · simp [reavix_ws_send, h2, Nat.not_le.mpr (by omega : 125 < m.length)]
    · rw [and_255_eq_mod, and_255_eq_mod, shiftRight_8_eq_div]
      omega
    · rw [and_255_eq_mod, shiftRight_8_eq_div]
      omega
    · rw [and_255_eq_mod]
      omega
  · intro h
    simp [reavix_ws_send, Nat.not_le.mpr (by omega : 125 < m.length),
      Nat.not_le.mpr (by omega : 65535 < m.length)]

/-- Witness for C7: a 2-byte payload is framed with the one-byte length, a
300-byte payload with the two-byte extended length, and a 70000-byte
payload is rejected with no frame emitted. -/
theorem C7_ws_frame_witness :
    reavix_ws_send true [104, 105] = some (129 :: [104, 105].length :: [104, 105]) ∧
    (∃ b2 b3, reavix_ws_send true (List.replicate 300 97)
        = some (129 :: 126 :: b2 :: b3 :: List.replicate 300 97) ∧
      b2 * 256 + b3 = (List.replicate 300 97).length ∧ b2 < 256 ∧ b3 < 256) ∧
    reavix_ws_send true (List.replicate 70000 97) = none := by
  refine ⟨(C7_ws_frame_classes [104, 105]).1 (by decide),
    (C7_ws_frame_classes (List.replicate 300 97)).2.1
      (by simp only [List.length_replicate]; omega)
      (by simp only [List.length_replicate]; omega),
    (C7_ws_frame_classes (List.replicate 70000 97)).2.2
      (by simp only [List.length_replicate]; omega)⟩

/-- Stage lists compose: if a prefix of stages runs to completion without
setting `headers_sent`, the whole list continues from the prefix's output. -/
theorem runShortCircuit_append (xs ys : List (Response → Response))
    (res r : Response) (h : runShortCircuit xs res = (r, false)) :
    runShortCircuit (xs ++ ys) res = runShortCircuit ys r := by
  induction xs generalizing res with
  | nil =>
    simp only [runShortCircuit, Prod.mk.injEq] at h
    simp [h.1]
  | cons f t ih =>
    simp only [runShortCircuit] at h ⊢
    by_cases hs : (f res).headers_sent
    · simp [hs] at h
    · simp only [hs, if_false] at h ⊢
      exact ih (f res) h

/-- C8: once a middleware (first conjunct) or a pre-handler hook (second
conjunct) sets `headers_sent`, `handle_request` returns that stage's
response unchanged: the remaining middleware, the pre-handler hooks, the
trie lookup and route handler, and the post-handler hooks — all arbitrary
here — are never consulted, so what that stage wrote (including its
`sent` transmission log) is exactly the dispatch outcome. -/
theorem C8_headers_sent_short_circuits :
    (∀ (mws1 mws2 prehooks : List (Response → Response)) (f : Response → Response)
        (root : TrieNode) (handlers : Nat → List (String × String) → Response → Response)
        (posthooks : List (Response → Response)) (path : String) (res r : Response),
        runShortCircuit mws1 res = (r, false) → (f r).headers_sent = true →
        handle_request (mws1 ++ f :: mws2) prehooks root handlers posthooks path res
          = f r) ∧
    (∀ (mws ph1 ph2 : List (Response → Response)) (g : Response → Response)
        (root : TrieNode) (handlers : Nat → List (String × String) → Response → Response)
        (posthooks : List (Response → Response)) (path : String) (res r1 r2 : Response),
        runShortCircuit mws res = (r1, false) → runShortCircuit ph1 r1 = (r2, false) →
        (g r2).headers_sent = true →
        handle_request mws (ph1 ++ g :: ph2) root handlers posthooks path res
          = g r2) := by
  constructor
  · intro mws1 mws2 prehooks f root handlers posthooks path res r h hset
    have e : runShortCircuit (mws1 ++ f :: mws2) res = (f r, true) := by
      rw [runShortCircuit_append mws1 (f :: mws2) res r h]
      simp [runShortCircuit, hset]
    simp [handle_request, e]
  · intro mws ph1 ph2 g root handlers posthooks path res r1 r2 h1 h2 hset
    have e : runShortCircuit (ph1 ++ g :: ph2) r1 = (g r2, true) := by
      rw [runShortCircuit_append ph1 (g :: ph2) r1 r2 h2]
      simp [runShortCircuit, hset]
    simp [handle_request, h1, e]

/-- Witness for C8: `send_response` as the latch-setting stage. As
middleware it hides a later middleware, the pre-hook, the handler trie and
a post-hook (which would have set other status codes); as a pre-handler
hook it does the same. In both runs the dispatch outcome is exactly
`send_response res0`. -/
theorem C8_headers_sent_witness :
    handle_request ([] ++ send_response :: [fun r => { r with status_code := 999 }])
      [fun r => { r with status_code := 998 }] root0 (fun _ _ r => r)
      [fun r => { r with status_code := 997 }] "/nope" res0 = send_response res0 ∧
    handle_request [] ([] ++ send_response :: [fun r => { r with status_code := 996 }])
      root0 (fun _ _ r => r) [fun r => { r with status_code := 995 }] "/nope" res0
      = send_response res0 := by
  constructor
  · exact C8_headers_sent_short_circuits.1 [] [fun r => { r with status_code := 999 }]
      [fun r => { r with status_code := 998 }] send_response root0 (fun _ _ r => r)
      [fun r => { r with status_code := 997 }] "/nope" res0 res0 rfl rfl
  · exact C8_headers_sent_short_circuits.2 [] [] [fun r => { r with status_code := 996 }]
      send_response root0 (fun _ _ r => r) [fun r => { r with status_code := 995 }]
      "/nope" res0 res0 res0 rfl rfl rfl

/-- Sample response for the C9 witness: empty body, NUL-terminated buffer. -/
def demoRes : Response :=
  { status_code := 0, content := [0], content_length := 0, headers := [],
    headers_sent := false, sent := [] }

/-- C9: `res_write` either returns true having appended exactly the given
bytes to the end of the body — `content_length` grows by their number, all
previously written body bytes are preserved, and the buffer stays
NUL-terminated — or returns false (NULL response, NULL data, or `realloc`
failure) leaving the response exactly as it was. The hypothesis is the
buffer well-formedness every reachable response satisfies: the logical body
length never exceeds the allocated buffer. -/
theorem C9_res_write_appends_or_leaves_unchanged (allocOk : Bool) (r : Response)
    (d : List Nat) (hwf : r.content_length ≤ r.content.length) :
    ((res_write allocOk (some r) (some d)).2 = true →
      ∃ r2, (res_write allocOk (some r) (some d)).1 = some r2 ∧
        r2.body = r.body ++ d ∧
        r2.content_length = r.content_length + d.length ∧
        r2.content.take r.content_length = r.body ∧
        r2.content.getD r2.content_length 0 = 0 ∧
        r2.status_code = r.status_code ∧ r2.headers = r.headers ∧
        r2.headers_sent = r.headers_sent) ∧
    ((res_write allocOk (some r) (some d)).2 = false →
      (res_write allocOk (some r) (some d)).1 = some r) ∧
    (∀ dd, res_write allocOk none dd = (none, false)) ∧
    res_write allocOk (some r) none = (some r, false) := by
  have hbodylen : r.body.length = r.content_length := by
    simp [Response.body, List.length_take, Nat.min_eq_left hwf]
  cases allocOk with
  | false =>
    refine ⟨?_, ?_, ?_, ?_⟩
    · intro h
      simp [res_write] at h
    · intro _
      simp [res_write]
    · intro dd
      cases dd <;> simp [res_write]
    · simp [res_write]
  | true =>
    refine ⟨?_, ?_, ?_, ?_⟩
    · intro _
      refine ⟨_, rfl, ?_, rfl, ?_, ?_, rfl, rfl, rfl⟩
      · show (r.body ++ d ++ [0]).take (r.content_length + d.length) = r.body ++ d
        rw [List.append_assoc, List.take_append_eq_append_take, ← hbodylen,
          List.take_of_length_le (by omega), Nat.add_sub_cancel_left,
          List.take_append_eq_append_take, List.take_of_length_le (by omega),
          Nat.sub_self, List.take_zero, List.append_nil]
      · show (r.body ++ d ++ [0]).take r.content_length = r.body
        rw [List.append_assoc, List.take_append_eq_append_take, ← hbodylen,
          List.take_of_length_le (by omega), Nat.sub_self, List.take_zero,
          List.append_nil]
      · show (r.body ++ d ++ [0]).getD (r.content_length + d.length) 0 = 0
        rw [List.getD_append_right (r.body ++ d) [0] 0 _
          (by simp [List.length_append, hbodylen])]
        simp [List.length_append, hbodylen]
    · intro h
      simp [res_write] at h
    · intro dd
      cases dd <;> simp [res_write]
    · simp [res_write]

/-- Witness for C9: appending one byte to the empty well-formed response
succeeds, with the body becoming that byte and the length becoming one. -/
theorem C9_res_write_witness :
    ∃ r2, (res_write true (some demoRes) (some [65])).1 = some r2 ∧
      r2.body = demoRes.body ++ [65] ∧
      r2.content_length = demoRes.content_length + 1 ∧
      r2.content.getD r2.content_length 0 = 0 := by
  obtain ⟨r2, h1, h2, h3, _, h5, _⟩ :=
    (C9_res_write_appends_or_leaves_unchanged true demoRes [65] (by decide)).1 (by decide)
  exact ⟨r2, h1, h2, by simpa using h3, h5⟩

/-- C10: `req_get_param` compares parameter names with `strcasecmp`, so the
lookup is ASCII-case-insensitive and returns the value of the first
captured parameter whose name matches the key up to case — a lookup for
"ID" finds the parameter captured for `:id` — and returns NULL (none) when
the request or key is NULL or when no captured name matches. -/
theorem C10_req_get_param_case_insensitive :
    (∀ k, req_get_param none (some k) = none) ∧
    (∀ r, req_get_param (some r) none = none) ∧
    (∀ (m p b : String) (hs ps : List (String × String)) (k : String),
        req_get_param (some ⟨m, p, b, hs, ps⟩) (some k) = none ↔
          ∀ q ∈ ps, strcaseEq q.1 k = false) ∧
    (∀ (ps1 ps2 : List (String × String)) (n v : String)
        (m p b : String) (hs : List (String × String)) (k : String),
        (∀ q ∈ ps1, strcaseEq q.1 k = false) → strcaseEq n k = true →
        req_get_param (some ⟨m, p, b, hs, ps1 ++ (n, v) :: ps2⟩) (some k) = some v) ∧
    req_get_param (some ⟨"GET", "/users/42", "", [], [("id", "42")]⟩) (some "ID")
      = some "42" := by
  refine ⟨?_, ?_, ?_, ?_, by decide⟩
  · intro k
    simp [req_get_param]
  · intro r
    simp [req_get_param]
  · intro m p b hs ps k
    simp [req_get_param, List.find?_eq_none]
  · intro ps1 ps2 n v m p b hs k hnone hhit
    induction ps1 with
    | nil =>
      simp [req_get_param, List.find?, hhit]
    | cons q t ih =>
      have hq : strcaseEq q.1 k = false := hnone q (by simp)
      have ht : ∀ x ∈ t, strcaseEq x.1 k = false := fun x hx => hnone x (by simp [hx])
      have := ih ht
      simpa [req_get_param, List.find?, hq] using this

/-- Witness for C10: a lookup for "ID" skips a non-matching first capture
and finds the capture recorded for `:id`, up to ASCII case. -/
theorem C10_req_get_param_witness :
    req_get_param (some ⟨"GET", "/users/42", "", [],
      [("trace", "7")] ++ ("id", "42") :: []⟩) (some "ID") = some "42" := by
  exact C10_req_get_param_case_insensitive.2.2.2.1 [("trace", "7")] [] "id" "42"
    "GET" "/users/42" "" [] "ID" (by decide) (by decide)
